import Mathlib

/-!
Shallow embedding of the credential lifecycle manager and event
synchronization engine of the law-bandit backend
(googleCalendarService module).

Conventions of the embedding:
* Instants are integers, milliseconds since the Unix epoch
  (JavaScript Date comparison of two dates is numeric comparison of
  their millisecond values).
* Database reads are passed in as explicit arguments (the record that
  the select returned, or none when the row is absent or the select
  errored); database writes are returned as explicit values.
* JavaScript truthiness on optional strings is modelled explicitly:
  null/undefined and the empty string are falsy.
* Fallible control flow is an explicit outcome type; a constructor
  records which error was thrown, or that the function delegated to the
  token-refresh path (i.e. that a remote call to the authorization
  server happens).
-/

namespace LawBandit

/-- A row of the google_calendar_tokens table. expiry_date is the stored
expiry instant (null when absent). -/
structure TokenRecord where
  user_id : String
  access_token : String
  refresh_token : Option String
  expiry_date : Option Int
  deriving Repr, DecidableEq

/-- The object returned by getUserTokensFromDatabase on the
not-expired path (the stored fields, unchanged). -/
structure Credential where
  access_token : String
  refresh_token : Option String
  expiry_date : Option Int
  user_id : String
  deriving Repr, DecidableEq

/-- JavaScript truthiness of an optional string: null/undefined and the
empty string are falsy. -/
def truthyStr : Option String → Bool
  | some s => decide (s ≠ "")
  | none => false

/-- The expiry test of the service:
tokenData.expiry_date and new Date() > new Date(tokenData.expiry_date).
Strict: a token whose expiry equals the current instant is NOT expired. -/
def isExpired (expiry : Option Int) (now : Int) : Bool :=
  match expiry with
  | some e => decide (now > e)
  | none => false

/-- Outcome of getUserTokensFromDatabase. The refreshCall constructor
records that the function delegated to refreshUserTokensFromDatabase
with the stored refresh token (the only path that reaches the
authorization server); every other constructor involves no remote call
and no store write. -/
inductive ResolveOutcome where
  | errUserIdRequired
  | errNotConnected
  | errExpiredNoRefresh
  | refreshCall (refreshToken : String)
  | ok (cred : Credential)
  deriving Repr, DecidableEq

/-- Does the outcome reach the authorization server (a refresh attempt)? -/
def ResolveOutcome.isRefreshCall : ResolveOutcome → Bool
  | .refreshCall _ => true
  | _ => false

/-- getUserTokensFromDatabase: fetch the token row for userId (passed in
as tokenData), throw when absent, delegate to the refresh path when the
stored expiry is strictly in the past, otherwise return the stored
fields unchanged. -/
def getUserTokensFromDatabase (userId : String) (tokenData : Option TokenRecord)
    (now : Int) : ResolveOutcome :=
  if userId = "" then .errUserIdRequired
  else
    match tokenData with
    | none => .errNotConnected
    | some r =>
      if isExpired r.expiry_date now then
        match r.refresh_token with
        | none => .errExpiredNoRefresh
        | some rt => if rt = "" then .errExpiredNoRefresh else .refreshCall rt
      else
        .ok { access_token := r.access_token
              refresh_token := r.refresh_token
              expiry_date := r.expiry_date
              user_id := r.user_id }

/-- The credentials object returned by the authorization server's
refreshAccessToken call. -/
structure OAuthCredentials where
  access_token : String
  expiry_date : Option Int
  deriving Repr, DecidableEq

/-- The expiry value persisted by the refresh path:
credentials.expiry_date ? toISOString(...) : null. JavaScript
truthiness on a number: 0 is falsy, so an expiry of exactly the epoch is
persisted as null. -/
def jsTruthyExpiry : Option Int → Option Int
  | some e => if e = 0 then none else some e
  | none => none

/-- The per-row update performed by refreshUserTokensFromDatabase:
only access_token and expiry_date are written. -/
def refreshUpdateRecord (creds : OAuthCredentials) (r : TokenRecord) : TokenRecord :=
  { r with access_token := creds.access_token
           expiry_date := jsTruthyExpiry creds.expiry_date }

/-- refreshUserTokensFromDatabase: the authorization server's response
creds is persisted into every row whose user_id matches (the supabase
update with eq on user_id), and the response object itself is returned
to the caller. -/
def refreshUserTokensFromDatabase (userId : String) (creds : OAuthCredentials)
    (table : List TokenRecord) : List TokenRecord × OAuthCredentials :=
  (table.map fun r => if r.user_id = userId then refreshUpdateRecord creds r else r,
   creds)

/-- The object returned by getUserConnectionStatusFromDatabase. On the
absent-record, error and missing-userId paths only connected is present;
the absent fields are modelled as none. -/
structure ConnectionStatus where
  connected : Bool
  lastSync : Option Int
  needsRefresh : Option Bool
  deriving Repr, DecidableEq

/-- getUserConnectionStatusFromDatabase: a best-effort status probe that
never throws. connected = !isExpired or hasRefreshToken,
needsRefresh = isExpired and hasRefreshToken, lastSync is the stored
expiry_date field. An absent record (or a select error, or a missing
userId) yields connected = false. -/
def getUserConnectionStatusFromDatabase (userId : String)
    (tokenData : Option TokenRecord) (now : Int) : ConnectionStatus :=
  if userId = "" then { connected := false, lastSync := none, needsRefresh := none }
  else
    match tokenData with
    | none => { connected := false, lastSync := none, needsRefresh := none }
    | some r =>
      let expired := isExpired r.expiry_date now
      { connected := !expired || truthyStr r.refresh_token
        lastSync := r.expiry_date
        needsRefresh := some (expired && truthyStr r.refresh_token) }

/-! ### Event mapper: internal event → Google Calendar draft -/

def msPerHour : Int := 60 * 60 * 1000

def msPerDay : Int := 24 * 60 * 60 * 1000

/-- The internal event data handed to formatEventForGoogleCalendar.
due_date is the instant new Date(due_date) parses to: for a bare
YYYY-MM-DD string JavaScript yields midnight UTC of that calendar date,
so due_date here is the UTC-midnight instant (ms) of the calendar date.
due_time is the wall-clock time of day in ms. -/
structure EventData where
  title : String
  description : Option String
  location : Option String
  due_date : Int
  due_time : Option Int
  deriving Repr, DecidableEq

structure Reminder where
  method : String
  minutes : Int
  deriving Repr, DecidableEq

/-- The draft sent to the Google Calendar API: start/end as instants
(their ISO serialization), a timezone identifier on each, and the
reminder configuration. -/
structure GoogleEventDraft where
  summary : String
  description : String
  location : String
  startMs : Int
  endMs : Int
  startTimeZone : String
  endTimeZone : String
  useDefaultReminders : Bool
  reminderOverrides : List Reminder
  deriving Repr, DecidableEq

/-- formatEventForGoogleCalendar. The process timezone is modelled by
its identifier tzId and its offset tzOffsetMs = (local wall clock −
UTC) in ms: JavaScript parses the timezone-less string
due_date T due_time as local time, i.e. to the instant
(UTC interpretation of the wall-clock value) − tzOffsetMs, while the
bare due_date parses as UTC midnight, unaffected by the offset. -/
def formatEventForGoogleCalendar (tzId : String) (tzOffsetMs : Int)
    (e : EventData) : GoogleEventDraft :=
  let dueDate := e.due_date
  let startTime := match e.due_time with
    | some t => dueDate + t - tzOffsetMs
    | none => dueDate
  let endTime := match e.due_time with
    | some _ => startTime + msPerHour
    | none => dueDate + msPerDay
  { summary := e.title
    description := (e.description.getD "")
    location := (e.location.getD "")
    startMs := startTime
    endMs := endTime
    startTimeZone := tzId
    endTimeZone := tzId
    useDefaultReminders := false
    reminderOverrides := [⟨"email", 24 * 60⟩, ⟨"popup", 30⟩] }

/-- The instant at which the local wall clock reads midnight of the
calendar date whose UTC-midnight instant is dateUtcMidnightMs. Stated
from the spec wording (local midnight of dueDate), for comparison with
what the code computes. -/
def localMidnightInstant (dateUtcMidnightMs tzOffsetMs : Int) : Int :=
  dateUtcMidnightMs - tzOffsetMs

/-! ### Sync engine: Google Calendar → local calendar_events rows -/

/-- The start field of a remote Google event: either a timed instant
(start.dateTime, an ms instant) or a bare all-day date (start.date,
represented by its day index, i.e. the count of days since the epoch
that its YYYY-MM-DD string denotes). -/
inductive GStart where
  | dateTime (ms : Int)
  | date (day : Int)
  deriving Repr, DecidableEq

/-- A remote event as consumed by the sync mapping (the fields it
reads). -/
structure GoogleEvent where
  summary : Option String
  description : Option String
  start : GStart
  deriving Repr, DecidableEq

/-- A row of the calendar_events table. due_date is a calendar date
(day index of its YYYY-MM-DD string); due_time is minutes since
midnight (the HH:MM substring), or null. -/
structure CalendarEventRow where
  user_id : String
  class_id : Option String
  title : String
  description : String
  event_type : String
  due_date : Int
  due_time : Option Int
  confidence_score : ℚ
  source_text : String
  created_at : Int
  deriving Repr, DecidableEq

/-- JavaScript short-circuit default s or d on an optional string:
null/undefined and the empty string fall through to the default. -/
def jsOrElse (s : Option String) (d : String) : String :=
  match s with
  | some v => if v = "" then d else v
  | none => d

/-- The UTC calendar date (day index) of an instant: the date portion of
its ISO serialization, new Date(ms).toISOString().split at T, index 0. -/
def utcDateOf (ms : Int) : Int :=
  Int.fdiv ms msPerDay

/-- The UTC time of day of an instant in whole minutes: the HH:MM
substring of the time portion of its ISO serialization. -/
def utcMinutesOf (ms : Int) : Int :=
  (Int.emod ms msPerDay) / (60 * 1000)

/-- Rendering of event.summary inside the template string
"Google Calendar Event: ..." (an absent field interpolates as the text
undefined). -/
def summaryText : Option String → String
  | some s => s
  | none => "undefined"

/-- The per-event mapping of syncEventsToDatabaseFromDatabase
(events.map inside it), producing the row to upsert. -/
def mapGoogleEvent (userId : String) (now : Int) (event : GoogleEvent) :
    CalendarEventRow :=
  { user_id := userId
    class_id := none
    title := jsOrElse event.summary "Untitled Event"
    description := jsOrElse event.description ""
    event_type := "google_calendar"
    due_date := match event.start with
      | .dateTime ms => utcDateOf ms
      | .date d => d
    due_time := match event.start with
      | .dateTime ms => some (utcMinutesOf ms)
      | .date _ => none
    confidence_score := 1
    source_text := "Google Calendar Event: " ++ summaryText event.summary
    created_at := now }

/-- The conflict key of the calendar_events upsert:
onConflict user_id, title, due_date. -/
def rowKey (r : CalendarEventRow) : String × String × Int :=
  (r.user_id, r.title, r.due_date)

/-- Modelled from the spec: the relational store's
upsert-with-conflict-key primitive (section 6), which the supabase
client invokes and whose execution is outside this repository. A row
matching the conflict key is overwritten in place; otherwise the row is
inserted fresh. -/
def upsertRow (table : List CalendarEventRow) (r : CalendarEventRow) :
    List CalendarEventRow :=
  if rowKey r ∈ table.map rowKey then
    table.map (fun q => if rowKey q = rowKey r then r else q)
  else
    table ++ [r]

/-- Modelled from the spec: the batched upsert of the mapped event list
into calendar_events, row by row in batch order. -/
def upsertBatch (table : List CalendarEventRow) (batch : List CalendarEventRow) :
    List CalendarEventRow :=
  batch.foldl upsertRow table

/-- The storage step of syncEventsToDatabaseFromDatabase: map every
pulled remote event and upsert the batch; returns the new table
together with syncedCount = events.length. -/
def syncEventsToDatabase (userId : String) (now : Int)
    (events : List GoogleEvent) (table : List CalendarEventRow) :
    List CalendarEventRow × Nat :=
  (upsertBatch table (events.map (mapGoogleEvent userId now)), events.length)

/-! ### Key bookkeeping for the upsert -/

/-- How one upsert changes the multiset of conflict keys, at the level
of key lists. -/
def insKey (ks : List (String × String × Int)) (k : String × String × Int) :
    List (String × String × Int) :=
  if k ∈ ks then ks else ks ++ [k]

theorem rowKey_mapGoogleEvent (userId : String) (now : Int) (g : GoogleEvent) :
    rowKey (mapGoogleEvent userId now g) =
      (userId, jsOrElse g.summary "Untitled Event",
        match g.start with
        | .dateTime ms => utcDateOf ms
        | .date d => d) := rfl

theorem keys_upsertRow (table : List CalendarEventRow) (r : CalendarEventRow) :
    (upsertRow table r).map rowKey = insKey (table.map rowKey) (rowKey r) := by
  unfold upsertRow insKey
  by_cases hmem : rowKey r ∈ table.map rowKey
  · rw [if_pos hmem, if_pos hmem, List.map_map]
    apply List.map_congr_left
    intro q _
    by_cases hq : rowKey q = rowKey r
    · simp [Function.comp, hq]
    · simp [Function.comp, hq]
  · rw [if_neg hmem, if_neg hmem, List.map_append, List.map_singleton]

theorem keys_upsertBatch (table : List CalendarEventRow)
    (batch : List CalendarEventRow) :
    (upsertBatch table batch).map rowKey =
      (batch.map rowKey).foldl insKey (table.map rowKey) := by
  induction batch generalizing table with
  | nil => rfl
  | cons r rest ih =>
    simp only [upsertBatch, List.foldl_cons, List.map_cons]
    rw [show List.foldl upsertRow (upsertRow table r) rest =
          upsertBatch (upsertRow table r) rest from rfl,
        ih, keys_upsertRow]

theorem mem_insKey (ks : List (String × String × Int))
    (k x : String × String × Int) (hx : x ∈ ks) : x ∈ insKey ks k := by
  unfold insKey
  by_cases h : k ∈ ks
  · simpa [h]
  · simp [h, List.mem_append, hx]

theorem mem_foldl_insKey (l ks : List (String × String × Int))
    (x : String × String × Int) (hx : x ∈ ks) : x ∈ l.foldl insKey ks := by
  induction l generalizing ks with
  | nil => exact hx
  | cons k rest ih => exact ih (insKey ks k) (mem_insKey ks k x hx)

theorem self_mem_foldl_insKey (l ks : List (String × String × Int))
    (x : String × String × Int) (hx : x ∈ l) : x ∈ l.foldl insKey ks := by
  induction l generalizing ks with
  | nil => cases hx
  | cons k rest ih =>
    rw [List.foldl_cons]
    rcases List.mem_cons.mp hx with h | h
    · subst h
      apply mem_foldl_insKey
      by_cases hk : x ∈ ks
      · simp [insKey, hk]
      · simp [insKey, hk]
    · exact ih (insKey ks k) h

theorem foldl_insKey_id (l ks : List (String × String × Int))
    (h : ∀ k ∈ l, k ∈ ks) : l.foldl insKey ks = ks := by
  induction l with
  | nil => rfl
  | cons k rest ih =>
    have hk : k ∈ ks := h k (List.mem_cons_self k rest)
    simp only [List.foldl_cons]
    rw [show insKey ks k = ks by simp [insKey, hk]]
    exact ih fun x hx => h x (List.mem_cons_of_mem k hx)

/-- The conflict key a mapped event contributes, which depends only on
the remote event and the user, never on the created_at timestamp. -/
def mappedKey (userId : String) (g : GoogleEvent) : String × String × Int :=
  (userId, jsOrElse g.summary "Untitled Event",
    match g.start with
    | .dateTime ms => utcDateOf ms
    | .date d => d)

theorem keys_of_mapped_batch (userId : String) (now : Int)
    (events : List GoogleEvent) :
    (events.map (mapGoogleEvent userId now)).map rowKey =
      events.map (mappedKey userId) := by
  rw [List.map_map]
  apply List.map_congr_left
  intro g _
  rfl

/-- C1: repeating a pull with the remote event set and window unchanged
leaves the calendar_events row count unchanged (the second batched
upsert only overwrites rows in place, whatever created_at instants the
two runs used), and a batch containing two mapped events with an
identical (user_id, title, due_date) triple stored into an empty table
yields exactly one row, holding the later event's values. -/
theorem C1_pullSync_idempotent :
    (∀ (userId : String) (events : List GoogleEvent)
        (table : List CalendarEventRow) (now1 now2 : Int),
      ((syncEventsToDatabase userId now2 events
          (syncEventsToDatabase userId now1 events table).1).1).length =
        ((syncEventsToDatabase userId now1 events table).1).length) ∧
    (∀ (userId : String) (now : Int) (g1 g2 : GoogleEvent),
      rowKey (mapGoogleEvent userId now g1) = rowKey (mapGoogleEvent userId now g2) →
      (syncEventsToDatabase userId now [g1, g2] []).1 =
        [mapGoogleEvent userId now g2]) := by
  constructor
  · intro userId events table now1 now2
    simp only [syncEventsToDatabase]
    have hK : (upsertBatch (upsertBatch table (events.map (mapGoogleEvent userId now1)))
          (events.map (mapGoogleEvent userId now2))).map rowKey =
        (upsertBatch table (events.map (mapGoogleEvent userId now1))).map rowKey := by
      rw [keys_upsertBatch, keys_of_mapped_batch]
      apply foldl_insKey_id
      intro k hk
      rw [keys_upsertBatch, keys_of_mapped_batch]
      exact self_mem_foldl_insKey _ _ k hk
    calc (upsertBatch (upsertBatch table (events.map (mapGoogleEvent userId now1)))
            (events.map (mapGoogleEvent userId now2))).length
        = ((upsertBatch (upsertBatch table (events.map (mapGoogleEvent userId now1)))
            (events.map (mapGoogleEvent userId now2))).map rowKey).length :=
          (List.length_map _ _).symm
      _ = ((upsertBatch table (events.map (mapGoogleEvent userId now1))).map rowKey).length := by
          rw [hK]
      _ = (upsertBatch table (events.map (mapGoogleEvent userId now1))).length :=
          List.length_map _ _
  · intro userId now g1 g2 hkey
    simp only [syncEventsToDatabase, List.map_cons, List.map_nil, upsertBatch,
      List.foldl_cons, List.foldl_nil]
    rw [show upsertRow [] (mapGoogleEvent userId now g1) =
          [mapGoogleEvent userId now g1] from by simp [upsertRow]]
    simp [upsertRow, hkey]

/-- A remote event used to instantiate the sync theorems. -/
def gev1 : GoogleEvent :=
  { summary := some "Essay due", description := none, start := .date 19737 }

/-- A second remote event sharing gev1's conflict key but carrying a
different description. -/
def gev2 : GoogleEvent :=
  { summary := some "Essay due", description := some "final draft", start := .date 19737 }

/-- C1 instantiated: one event synced twice (at distinct created_at
instants) keeps a single row, and a two-event batch with one shared key
collapses to the later row. -/
theorem C1_pullSync_idempotent_witness :
    ((syncEventsToDatabase "u1" 5 [gev1]
        (syncEventsToDatabase "u1" 3 [gev1] []).1).1).length =
      ((syncEventsToDatabase "u1" 3 [gev1] []).1).length ∧
    (syncEventsToDatabase "u1" 7 [gev1, gev2] []).1 = [mapGoogleEvent "u1" 7 gev2] :=
  ⟨C1_pullSync_idempotent.1 "u1" [gev1] [] 3 5,
   C1_pullSync_idempotent.2 "u1" 7 gev1 gev2 (by decide)⟩

/-- A stored token record whose expiry equals the probe instant 1000. -/
def recExpiryNow : TokenRecord :=
  { user_id := "u1", access_token := "at", refresh_token := some "rt",
    expiry_date := some 1000 }

/-- A stored token record whose expiry is strictly before the probe
instant 1000. -/
def recExpiryPast : TokenRecord :=
  { user_id := "u1", access_token := "at", refresh_token := some "rt",
    expiry_date := some 999 }

/-- C2 counterexample: the expiry check is strict (now > expiry_date),
so a credential whose expiry equals the current instant is returned
unchanged with NO refresh attempted, and one whose expiry is any
strictly earlier instant triggers the refresh — the opposite of the
claimed boundary behaviour on both sides. -/
theorem C2_expiry_boundary_counterexample :
    (getUserTokensFromDatabase "u1" (some recExpiryNow) 1000).isRefreshCall = false ∧
    getUserTokensFromDatabase "u1" (some recExpiryNow) 1000 =
      .ok { access_token := "at", refresh_token := some "rt",
            expiry_date := some 1000, user_id := "u1" } ∧
    (getUserTokensFromDatabase "u1" (some recExpiryPast) 1000).isRefreshCall = true := by
  decide

/-- C2 (amended): a credential whose expiry equals the current instant
is treated as VALID (returned unchanged, no refresh), while one whose
expiry is strictly before the current instant — by as little as one
time unit — is treated as expired and, given a refresh token, a refresh
is attempted. -/
theorem C2_expiry_boundary_amended (userId : String) (r : TokenRecord) (now : Int)
    (huid : userId ≠ "") :
    (r.expiry_date = some now →
      getUserTokensFromDatabase userId (some r) now =
        .ok { access_token := r.access_token, refresh_token := r.refresh_token,
              expiry_date := r.expiry_date, user_id := r.user_id }) ∧
    (∀ e rt, r.expiry_date = some e → e < now → r.refresh_token = some rt → rt ≠ "" →
      getUserTokensFromDatabase userId (some r) now = .refreshCall rt) := by
  constructor
  · intro he
    simp [getUserTokensFromDatabase, huid, isExpired, he]
  · intro e rt he hlt hrt hne
    simp [getUserTokensFromDatabase, huid, isExpired, he, hlt, hrt, hne]

/-- C2 amended theorem instantiated at the boundary records. -/
theorem C2_expiry_boundary_amended_witness :
    getUserTokensFromDatabase "u1" (some recExpiryNow) 1000 =
      .ok { access_token := "at", refresh_token := some "rt",
            expiry_date := some 1000, user_id := "u1" } ∧
    getUserTokensFromDatabase "u1" (some recExpiryPast) 1000 = .refreshCall "rt" :=
  ⟨(C2_expiry_boundary_amended "u1" recExpiryNow 1000 (by decide)).1 rfl,
   (C2_expiry_boundary_amended "u1" recExpiryPast 1000 (by decide)).2 999 "rt"
     rfl (by decide) rfl (by decide)⟩

/-- C3: resolving with no stored record fails with the not-connected
error; a record with a past expiry and no (or empty, hence falsy)
refresh token fails with the expired-no-refresh error and no call to
the authorization server is made; a record that is not expired (in
particular one with no expiry at all) has its stored fields returned
unchanged, with no refresh call and no store write. -/
theorem C3_resolve_error_paths (userId : String) (r : TokenRecord) (now : Int)
    (huid : userId ≠ "") :
    (getUserTokensFromDatabase userId none now = .errNotConnected) ∧
    (∀ e, r.expiry_date = some e → e < now → truthyStr r.refresh_token = false →
      getUserTokensFromDatabase userId (some r) now = .errExpiredNoRefresh ∧
      (getUserTokensFromDatabase userId (some r) now).isRefreshCall = false) ∧
    (isExpired r.expiry_date now = false →
      getUserTokensFromDatabase userId (some r) now =
        .ok { access_token := r.access_token, refresh_token := r.refresh_token,
              expiry_date := r.expiry_date, user_id := r.user_id } ∧
      (getUserTokensFromDatabase userId (some r) now).isRefreshCall = false) := by
  refine ⟨by simp [getUserTokensFromDatabase, huid], ?_, ?_⟩
  · intro e he hlt htr
    have hres : getUserTokensFromDatabase userId (some r) now = .errExpiredNoRefresh := by
      cases hrt : r.refresh_token with
      | none => simp [getUserTokensFromDatabase, huid, isExpired, he, hlt, hrt]
      | some rt =>
        have hrt0 : rt = "" := by
          by_contra hne
          rw [hrt] at htr
          simp [truthyStr, hne] at htr
        simp [getUserTokensFromDatabase, huid, isExpired, he, hlt, hrt, hrt0]
    exact ⟨hres, by rw [hres]; rfl⟩
  · intro hexp
    have hres : getUserTokensFromDatabase userId (some r) now =
        .ok { access_token := r.access_token, refresh_token := r.refresh_token,
              expiry_date := r.expiry_date, user_id := r.user_id } := by
      simp [getUserTokensFromDatabase, huid, hexp]
    exact ⟨hres, by rw [hres]; rfl⟩

/-- A stored token record with a past expiry and no refresh token. -/
def recExpiredNoRefresh : TokenRecord :=
  { user_id := "u1", access_token := "at", refresh_token := none,
    expiry_date := some 999 }

/-- A stored token record with no expiry at all. -/
def recNoExpiry : TokenRecord :=
  { user_id := "u1", access_token := "at", refresh_token := none,
    expiry_date := none }

/-- C3 instantiated: absent record, expired record without refresh
token, and non-expiring record. -/
theorem C3_resolve_error_paths_witness :
    getUserTokensFromDatabase "u1" none 1000 = .errNotConnected ∧
    getUserTokensFromDatabase "u1" (some recExpiredNoRefresh) 1000 =
      .errExpiredNoRefresh ∧
    getUserTokensFromDatabase "u1" (some recNoExpiry) 1000 =
      .ok { access_token := "at", refresh_token := none,
            expiry_date := none, user_id := "u1" } :=
  ⟨(C3_resolve_error_paths "u1" recExpiredNoRefresh 1000 (by decide)).1,
   ((C3_resolve_error_paths "u1" recExpiredNoRefresh 1000 (by decide)).2.1 999
      rfl (by decide) (by decide)).1,
   ((C3_resolve_error_paths "u1" recNoExpiry 1000 (by decide)).2.2 (by decide)).1⟩

/-- An internal event with a dueDate and no dueTime (an all-day
event). -/
def allDayEvent : EventData :=
  { title := "Moot court brief", description := none, location := none,
    due_date := 0, due_time := none }

/-- C4 counterexample: in a process timezone one hour ahead of UTC
(offset +3600000 ms), the all-day start instant produced by
formatEventForGoogleCalendar is UTC midnight of the due date, which is
NOT the instant of local midnight — new Date on a bare YYYY-MM-DD
string parses as UTC, so the claimed local-midnight anchoring fails. -/
theorem C4_toRemote_counterexample :
    (formatEventForGoogleCalendar "Europe/Paris" 3600000 allDayEvent).startMs ≠
      localMidnightInstant allDayEvent.due_date 3600000 := by
  decide

/-- C4 (amended): an event with no dueTime maps to a start anchored at
UTC midnight of dueDate (local midnight only when the process timezone
offset is zero) with the end exactly 24 hours later; an event with a
dueTime maps to a start at that wall-clock time local on dueDate with
the end exactly 1 hour later; both instants carry the process's
timezone identifier, and the fixed reminder overrides (email 1440
minutes before, popup 30 minutes before) are attached. -/
theorem C4_toRemote_mapping_amended (tzId : String) (tzOffsetMs : Int)
    (e : EventData) :
    (e.due_time = none →
      (formatEventForGoogleCalendar tzId tzOffsetMs e).startMs = e.due_date ∧
      (formatEventForGoogleCalendar tzId tzOffsetMs e).endMs =
        (formatEventForGoogleCalendar tzId tzOffsetMs e).startMs + msPerDay) ∧
    (∀ t, e.due_time = some t →
      (formatEventForGoogleCalendar tzId tzOffsetMs e).startMs =
        localMidnightInstant e.due_date tzOffsetMs + t ∧
      (formatEventForGoogleCalendar tzId tzOffsetMs e).endMs =
        (formatEventForGoogleCalendar tzId tzOffsetMs e).startMs + msPerHour) ∧
    (formatEventForGoogleCalendar tzId tzOffsetMs e).startTimeZone = tzId ∧
    (formatEventForGoogleCalendar tzId tzOffsetMs e).endTimeZone = tzId ∧
    (formatEventForGoogleCalendar tzId tzOffsetMs e).useDefaultReminders = false ∧
    (formatEventForGoogleCalendar tzId tzOffsetMs e).reminderOverrides =
      [⟨"email", 1440⟩, ⟨"popup", 30⟩] := by
  refine ⟨?_, ?_, rfl, rfl, rfl, by simp [formatEventForGoogleCalendar]⟩
  · intro h
    constructor
    · simp [formatEventForGoogleCalendar, h]
    · simp [formatEventForGoogleCalendar, h]
  · intro t h
    constructor
    · simp only [formatEventForGoogleCalendar, h, localMidnightInstant]
      ring
    · simp [formatEventForGoogleCalendar, h]

/-- An internal event due at wall-clock 14:00 (50400000 ms into the
day). -/
def timedEvent : EventData :=
  { title := "Contracts seminar", description := some "room 2",
    location := none, due_date := 0, due_time := some 50400000 }

/-- C4 amended theorem instantiated on an all-day and a timed event. -/
theorem C4_toRemote_mapping_amended_witness :
    (formatEventForGoogleCalendar "Europe/Paris" 3600000 allDayEvent).endMs =
      (formatEventForGoogleCalendar "Europe/Paris" 3600000 allDayEvent).startMs +
        msPerDay ∧
    (formatEventForGoogleCalendar "Europe/Paris" 3600000 timedEvent).startMs =
      localMidnightInstant timedEvent.due_date 3600000 + 50400000 ∧
    (formatEventForGoogleCalendar "Europe/Paris" 3600000 timedEvent).endMs =
      (formatEventForGoogleCalendar "Europe/Paris" 3600000 timedEvent).startMs +
        msPerHour :=
  ⟨((C4_toRemote_mapping_amended "Europe/Paris" 3600000 allDayEvent).1 rfl).2,
   ((C4_toRemote_mapping_amended "Europe/Paris" 3600000 timedEvent).2.1 50400000 rfl).1,
   ((C4_toRemote_mapping_amended "Europe/Paris" 3600000 timedEvent).2.1 50400000 rfl).2⟩

/-- C5: the pull-sync per-event mapping sets due_date to the (UTC) date
portion of the remote start whether timed or bare, due_time to the
HH:MM time-of-day portion exactly when the start was a timed instant,
forces event_type to the google_calendar sentinel, confidence_score to
1.0, synthesizes source_text from the fixed template around the remote
summary, and forces class_id to null. -/
theorem C5_toInternal_mapping (userId : String) (now : Int) (g : GoogleEvent) :
    (∀ ms, g.start = .dateTime ms →
      (mapGoogleEvent userId now g).due_date = utcDateOf ms ∧
      (mapGoogleEvent userId now g).due_time = some (utcMinutesOf ms)) ∧
    (∀ d, g.start = .date d →
      (mapGoogleEvent userId now g).due_date = d ∧
      (mapGoogleEvent userId now g).due_time = none) ∧
    (mapGoogleEvent userId now g).event_type = "google_calendar" ∧
    (mapGoogleEvent userId now g).confidence_score = 1 ∧
    (mapGoogleEvent userId now g).source_text =
      "Google Calendar Event: " ++ summaryText g.summary ∧
    (mapGoogleEvent userId now g).class_id = none := by
  refine ⟨?_, ?_, rfl, rfl, rfl, rfl⟩
  · intro ms h
    exact ⟨by simp [mapGoogleEvent, h], by simp [mapGoogleEvent, h]⟩
  · intro d h
    exact ⟨by simp [mapGoogleEvent, h], by simp [mapGoogleEvent, h]⟩

/-- A timed remote event: start 2024-01-15T14:30:45Z
(= 1705329045000 ms). -/
def gevTimed : GoogleEvent :=
  { summary := some "Hearing", description := none,
    start := .dateTime 1705329045000 }

/-- C5 instantiated on a timed and a bare-date remote event: the timed
start yields due_date 2024-01-15 (day index 19737) and due_time 14:30
(870 minutes), the bare date yields its own day and a null due_time. -/
theorem C5_toInternal_mapping_witness :
    (mapGoogleEvent "u1" 3 gevTimed).due_date = 19737 ∧
    (mapGoogleEvent "u1" 3 gevTimed).due_time = some 870 ∧
    (mapGoogleEvent "u1" 3 gev1).due_date = 19737 ∧
    (mapGoogleEvent "u1" 3 gev1).due_time = none := by
  have ht := (C5_toInternal_mapping "u1" 3 gevTimed).1 1705329045000 rfl
  have hd := (C5_toInternal_mapping "u1" 3 gev1).2.1 19737 rfl
  refine ⟨?_, ?_, hd.1, hd.2⟩
  · rw [ht.1]; decide
  · rw [ht.2]; decide

/-- C6: connection status is computed purely from the stored record:
needsRefresh = expired AND hasRefreshToken, connected = NOT expired OR
hasRefreshToken; an absent record (or internal error) degrades to
connected = false instead of throwing; and the three claimed
truth-table rows hold. -/
theorem C6_connection_status (userId : String) (r : TokenRecord) (now : Int)
    (huid : userId ≠ "") :
    ((getUserConnectionStatusFromDatabase userId (some r) now).needsRefresh =
      some (isExpired r.expiry_date now && truthyStr r.refresh_token)) ∧
    ((getUserConnectionStatusFromDatabase userId (some r) now).connected =
      (!isExpired r.expiry_date now || truthyStr r.refresh_token)) ∧
    (getUserConnectionStatusFromDatabase userId none now =
      { connected := false, lastSync := none, needsRefresh := none }) ∧
    (isExpired r.expiry_date now = false → truthyStr r.refresh_token = false →
      (getUserConnectionStatusFromDatabase userId (some r) now).connected = true ∧
      (getUserConnectionStatusFromDatabase userId (some r) now).needsRefresh =
        some false) ∧
    (isExpired r.expiry_date now = true → truthyStr r.refresh_token = true →
      (getUserConnectionStatusFromDatabase userId (some r) now).connected = true ∧
      (getUserConnectionStatusFromDatabase userId (some r) now).needsRefresh =
        some true) ∧
    (isExpired r.expiry_date now = true → truthyStr r.refresh_token = false →
      (getUserConnectionStatusFromDatabase userId (some r) now).connected = false ∧
      (getUserConnectionStatusFromDatabase userId (some r) now).needsRefresh =
        some false) := by
  refine ⟨by simp [getUserConnectionStatusFromDatabase, huid],
    by simp [getUserConnectionStatusFromDatabase, huid],
    by simp [getUserConnectionStatusFromDatabase, huid], ?_, ?_, ?_⟩
  all_goals
    intro he hr
    constructor
    all_goals simp [getUserConnectionStatusFromDatabase, huid, he, hr]

/-- A stored token record that is expired at instant 1000 and has a
refresh token. -/
def recExpiredWithRefresh : TokenRecord :=
  { user_id := "u1", access_token := "at", refresh_token := some "rt",
    expiry_date := some 999 }

/-- C6 instantiated on the three truth-table rows and the absent
record. -/
theorem C6_connection_status_witness :
    getUserConnectionStatusFromDatabase "u1" none 1000 =
      { connected := false, lastSync := none, needsRefresh := none } ∧
    (getUserConnectionStatusFromDatabase "u1" (some recNoExpiry) 1000).connected =
      true ∧
    (getUserConnectionStatusFromDatabase "u1" (some recNoExpiry) 1000).needsRefresh =
      some false ∧
    (getUserConnectionStatusFromDatabase "u1" (some recExpiredWithRefresh) 1000).connected =
      true ∧
    (getUserConnectionStatusFromDatabase "u1" (some recExpiredWithRefresh) 1000).needsRefresh =
      some true ∧
    (getUserConnectionStatusFromDatabase "u1" (some recExpiredNoRefresh) 1000).connected =
      false ∧
    (getUserConnectionStatusFromDatabase "u1" (some recExpiredNoRefresh) 1000).needsRefresh =
      some false :=
  ⟨(C6_connection_status "u1" recNoExpiry 1000 (by decide)).2.2.1,
   ((C6_connection_status "u1" recNoExpiry 1000 (by decide)).2.2.2.1
      (by decide) (by decide)).1,
   ((C6_connection_status "u1" recNoExpiry 1000 (by decide)).2.2.2.1
      (by decide) (by decide)).2,
   ((C6_connection_status "u1" recExpiredWithRefresh 1000 (by decide)).2.2.2.2.1
      (by decide) (by decide)).1,
   ((C6_connection_status "u1" recExpiredWithRefresh 1000 (by decide)).2.2.2.2.1
      (by decide) (by decide)).2,
   ((C6_connection_status "u1" recExpiredNoRefresh 1000 (by decide)).2.2.2.2.2
      (by decide) (by decide)).1,
   ((C6_connection_status "u1" recExpiredNoRefresh 1000 (by decide)).2.2.2.2.2
      (by decide) (by decide)).2⟩

/-- C7: a refresh writes only the access_token and expiry_date columns:
across the whole table the refresh_token and user_id columns are
unchanged, the rows matching the user receive exactly the server's new
access token and (truthiness-filtered) expiry, non-matching rows are
untouched, and the server's credentials object is returned to the
caller as is. -/
theorem C7_refresh_frame (userId : String) (creds : OAuthCredentials)
    (table : List TokenRecord) :
    ((refreshUserTokensFromDatabase userId creds table).2 = creds) ∧
    ((refreshUserTokensFromDatabase userId creds table).1.map
        (fun r => r.refresh_token) =
      table.map (fun r => r.refresh_token)) ∧
    ((refreshUserTokensFromDatabase userId creds table).1.map
        (fun r => r.user_id) =
      table.map (fun r => r.user_id)) ∧
    (∀ r ∈ table, r.user_id = userId →
      (refreshUpdateRecord creds r).access_token = creds.access_token ∧
      (refreshUpdateRecord creds r).expiry_date = jsTruthyExpiry creds.expiry_date ∧
      (refreshUpdateRecord creds r).refresh_token = r.refresh_token ∧
      (refreshUpdateRecord creds r).user_id = r.user_id) ∧
    (∀ r ∈ table, r.user_id ≠ userId →
      r ∈ (refreshUserTokensFromDatabase userId creds table).1) := by
  refine ⟨rfl, ?_, ?_, ?_, ?_⟩
  · simp only [refreshUserTokensFromDatabase, List.map_map]
    apply List.map_congr_left
    intro r _
    by_cases h : r.user_id = userId
    · simp [Function.comp, h, refreshUpdateRecord]
    · simp [Function.comp, h]
  · simp only [refreshUserTokensFromDatabase, List.map_map]
    apply List.map_congr_left
    intro r _
    by_cases h : r.user_id = userId
    · simp [Function.comp, h, refreshUpdateRecord]
    · simp [Function.comp, h]
  · intro r _ _
    exact ⟨rfl, rfl, rfl, rfl⟩
  · intro r hr h
    refine List.mem_map.mpr ⟨r, hr, ?_⟩
    simp [h]

/-- The server response used to instantiate the refresh theorems. -/
def credsFresh : OAuthCredentials :=
  { access_token := "at2", expiry_date := some 5000 }

/-- A second user's stored token record, untouched by u1's refresh. -/
def recOtherUser : TokenRecord :=
  { user_id := "u2", access_token := "b", refresh_token := some "r2",
    expiry_date := none }

/-- C7 instantiated on a two-row table: the matching row gets the new
access token and expiry, both rows keep their refresh_token and
user_id, and the response is returned unchanged. -/
theorem C7_refresh_frame_witness :
    ((refreshUserTokensFromDatabase "u1" credsFresh
        [recExpiryPast, recOtherUser]).2 = credsFresh) ∧
    ((refreshUserTokensFromDatabase "u1" credsFresh
        [recExpiryPast, recOtherUser]).1.map
        (fun r => r.refresh_token) = [some "rt", some "r2"]) ∧
    (refreshUpdateRecord credsFresh recExpiryPast).access_token = "at2" ∧
    (refreshUpdateRecord credsFresh recExpiryPast).expiry_date = some 5000 ∧
    (refreshUpdateRecord credsFresh recExpiryPast).refresh_token = some "rt" ∧
    recOtherUser ∈ (refreshUserTokensFromDatabase "u1" credsFresh
        [recExpiryPast, recOtherUser]).1 := by
  have h := C7_refresh_frame "u1" credsFresh [recExpiryPast, recOtherUser]
  have hm := h.2.2.2.1 recExpiryPast (by decide) (by decide)
  have ho := h.2.2.2.2 recOtherUser (by decide) (by decide)
  exact ⟨h.1, by rw [h.2.1]; decide, hm.1, by rw [hm.2.1]; decide, hm.2.2.1, ho⟩

/-- C8: a remote event with an absent (or empty, hence falsy) summary
is stored with the fixed title Untitled Event, an absent description is
stored as the empty string, and every synced row's title is
non-empty. -/
theorem C8_default_title (userId : String) (now : Int) (g : GoogleEvent) :
    (g.summary = none → (mapGoogleEvent userId now g).title = "Untitled Event") ∧
    (g.description = none → (mapGoogleEvent userId now g).description = "") ∧
    (mapGoogleEvent userId now g).title ≠ "" := by
  refine ⟨?_, ?_, ?_⟩
  · intro h
    simp [mapGoogleEvent, jsOrElse, h]
  · intro h
    simp [mapGoogleEvent, jsOrElse, h]
  · show jsOrElse g.summary "Untitled Event" ≠ ""
    cases hs : g.summary with
    | none => simp [jsOrElse]
    | some v =>
      simp only [jsOrElse]
      by_cases h : v = ""
      · simp [h]
      · simp [h]

/-- A remote event carrying neither a summary nor a description. -/
def gevBare : GoogleEvent :=
  { summary := none, description := none, start := .date 19800 }

/-- C8 instantiated on a remote event with no summary and no
description. -/
theorem C8_default_title_witness :
    (mapGoogleEvent "u1" 3 gevBare).title = "Untitled Event" ∧
    (mapGoogleEvent "u1" 3 gevBare).description = "" ∧
    (mapGoogleEvent "u1" 3 gevBare).title ≠ "" :=
  ⟨(C8_default_title "u1" 3 gevBare).1 rfl,
   (C8_default_title "u1" 3 gevBare).2.1 rfl,
   (C8_default_title "u1" 3 gevBare).2.2⟩

/-- C9: for a user with a stored record, the lastSync field of the
connection status is literally the record's stored expiry_date — never
a synchronization timestamp — and it is null exactly when the record
has no expiry. -/
theorem C9_lastSync_is_expiry (userId : String) (r : TokenRecord) (now : Int)
    (huid : userId ≠ "") :
    ((getUserConnectionStatusFromDatabase userId (some r) now).lastSync =
      r.expiry_date) ∧
    ((getUserConnectionStatusFromDatabase userId (some r) now).lastSync = none ↔
      r.expiry_date = none) := by
  have h : (getUserConnectionStatusFromDatabase userId (some r) now).lastSync =
      r.expiry_date := by
    simp [getUserConnectionStatusFromDatabase, huid]
  exact ⟨h, by rw [h]⟩

/-- C9 instantiated: a record with an expiry reports that expiry as
lastSync; one without reports null. -/
theorem C9_lastSync_is_expiry_witness :
    (getUserConnectionStatusFromDatabase "u1" (some recExpiryNow) 1000).lastSync =
      some 1000 ∧
    (getUserConnectionStatusFromDatabase "u1" (some recNoExpiry) 1000).lastSync =
      none :=
  ⟨(C9_lastSync_is_expiry "u1" recExpiryNow 1000 (by decide)).1,
   (C9_lastSync_is_expiry "u1" recNoExpiry 1000 (by decide)).1⟩

/-- C10: when the authorization server's response carries no expiry,
the refresh persists a null expiry_date, and the resulting record is
non-expiring: at every later instant resolution returns the stored
credential unchanged and never attempts a refresh again. -/
theorem C10_null_expiry_non_expiring (userId : String) (r : TokenRecord)
    (creds : OAuthCredentials) (huid : userId ≠ "")
    (hexp : creds.expiry_date = none) :
    ((refreshUpdateRecord creds r).expiry_date = none) ∧
    (∀ now : Int,
      getUserTokensFromDatabase userId (some (refreshUpdateRecord creds r)) now =
        .ok { access_token := creds.access_token,
              refresh_token := r.refresh_token,
              expiry_date := none, user_id := r.user_id } ∧
      (getUserTokensFromDatabase userId
          (some (refreshUpdateRecord creds r)) now).isRefreshCall = false) := by
  have hnull : (refreshUpdateRecord creds r).expiry_date = none := by
    simp [refreshUpdateRecord, jsTruthyExpiry, hexp]
  refine ⟨hnull, ?_⟩
  intro now
  have hres : getUserTokensFromDatabase userId
      (some (refreshUpdateRecord creds r)) now =
      .ok { access_token := creds.access_token,
            refresh_token := r.refresh_token,
            expiry_date := none, user_id := r.user_id } := by
    simp [getUserTokensFromDatabase, huid, isExpired, refreshUpdateRecord,
      jsTruthyExpiry, hexp]
  exact ⟨hres, by rw [hres]; rfl⟩

/-- A server response with no expiry field. -/
def credsNoExpiry : OAuthCredentials :=
  { access_token := "at3", expiry_date := none }

/-- C10 instantiated: after a refresh whose response lacks an expiry,
resolution at a much later instant still returns the credential
unchanged with no refresh attempted. -/
theorem C10_null_expiry_non_expiring_witness :
    (refreshUpdateRecord credsNoExpiry recExpiryPast).expiry_date = none ∧
    getUserTokensFromDatabase "u1"
        (some (refreshUpdateRecord credsNoExpiry recExpiryPast)) 999999999 =
      .ok { access_token := "at3", refresh_token := some "rt",
            expiry_date := none, user_id := "u1" } :=
  ⟨(C10_null_expiry_non_expiring "u1" recExpiryPast credsNoExpiry
      (by decide) rfl).1,
   ((C10_null_expiry_non_expiring "u1" recExpiryPast credsNoExpiry
      (by decide) rfl).2 999999999).1⟩

end LawBandit
